import Mathlib

/-!
Verification development for the freelist allocator in
src/freelist-alloc/src/lib.rs.

Shallow embedding conventions:

* Pointers and `usize` values are natural numbers; the null pointer is `0`.
  On the 64-bit target, `size_of::<RegionHeader>() = size_of::<AllocationTag>() = 32`
  (four 8-byte fields each), both with alignment 8, and
  `mem::size_of_val(&REG_END) = 6`.
* Heap memory is modelled at 8-byte-word granularity: an association list from
  byte addresses to the 8-byte value most recently stored there.  Every field
  the Rust code reads or writes is an 8-byte field at an 8-byte offset from the
  struct base, so this granularity captures exactly the aliasing the code
  performs (in particular an `AllocationTag` written over a `RegionHeader`
  overlays it field by field, both structs having four 8-byte fields).
  The single 6-byte `REG_END` write (`write_unaligned` at `end - 6`) is
  recorded at its byte address `end - 6`; no code path ever reads it back.
* The 8-byte magic byte strings are represented by their little-endian `u64`
  values.
* The OS (`libc::mmap`) is modelled by an oracle: a list of the addresses the
  OS will hand out, in order.  When the oracle is exhausted the OS denies the
  request and `mmap` returns `MAP_FAILED` (the all-ones pointer, `-1` cast to
  a pointer), exactly the failure value of the real `mmap`.
* Rust panics are modelled with `Except String`; a `.error` result is a panic
  that aborts the process, so it carries no post-state.
-/

set_option maxRecDepth 1000000

namespace FreelistAlloc

/-- Word-granular memory: latest store to an address wins (`load` scans from
the most recent store). -/
abbrev Mem := List (Nat × Nat)

def store (m : Mem) (a v : Nat) : Mem := (a, v) :: m

def load : Mem → Nat → Nat
  | [], _ => 0
  | (a, v) :: rest, b => if a = b then v else load rest b

/-- `const REGION_START: [u8; 8] = *b"REGSTART"` as a little-endian u64. -/
def REGION_START : Nat := 0x5452415453474552

/-- `const REG_END: [u8; 6] = *b"REGEND"` as a little-endian 48-bit value. -/
def REG_END : Nat := 0x444e45474552

/-- `const TAG_START: [u8; 8] = *b"TAGSTART"` as a little-endian u64.
Declared in the source but never written anywhere. -/
def TAG_START : Nat := 0x5452415453474154

/-- `const TAG_END: [u8; 8] = *b"\0\0TAGEND"` as a little-endian u64. -/
def TAG_END : Nat := 0x444e454741540000

/-- `MAP_FAILED`, the value `mmap` returns when the OS denies the mapping:
`(-1) as *mut u8`, i.e. the all-ones 64-bit pointer. -/
def MAP_FAILED : Nat := 18446744073709551615

/-- `struct RegionHeader { magic: [u8; 8], prev, next: *mut RegionHeader, size: usize }`.
Field offsets 0, 8, 16, 24; `size_of` 32, align 8. -/
structure RegionHeader where
  magic : Nat
  prev : Nat
  next : Nat
  size : Nat
deriving DecidableEq, Repr

/-- `struct AllocationTag { tag_start: [u8; 8], prev_free: *mut RegionHeader, size: usize, tag_end: [u8; 8] }`.
Field offsets 0, 8, 16, 24; `size_of` 32, align 8. -/
structure AllocationTag where
  tag_start : Nat
  prev_free : Nat
  size : Nat
  tag_end : Nat
deriving DecidableEq, Repr

/-- `struct AllocationLayout` returned by `make_allocation`. -/
structure AllocationLayout where
  start_ptr : Nat
  tag_ptr : Nat
  allocation_ptr : Nat
  next_region_ptr : Nat
deriving DecidableEq, Repr

/-- `struct MappedMemory { start: *mut u8, len: usize, largest: usize, first_free: *mut RegionHeader }`. -/
structure MappedMemory where
  start : Nat
  len : Nat
  largest : Nat
  first_free : Nat
deriving DecidableEq, Repr

/-- `std::alloc::Layout`: a size and a (power-of-two) alignment. -/
structure Layout where
  size : Nat
  align : Nat
deriving DecidableEq, Repr

/-- Reading a `RegionHeader` at `base`: four 8-byte loads. -/
def readRegionHeader (m : Mem) (base : Nat) : RegionHeader :=
  ⟨load m base, load m (base + 8), load m (base + 16), load m (base + 24)⟩

/-- Writing a `RegionHeader` at `base`: four 8-byte stores. -/
def writeRegionHeader (m : Mem) (base : Nat) (h : RegionHeader) : Mem :=
  store (store (store (store m base h.magic) (base + 8) h.prev) (base + 16) h.next)
    (base + 24) h.size

/-- Writing an `AllocationTag` at `base`: four 8-byte stores. -/
def writeAllocationTag (m : Mem) (base : Nat) (t : AllocationTag) : Mem :=
  store (store (store (store m base t.tag_start) (base + 8) t.prev_free) (base + 16) t.size)
    (base + 24) t.tag_end

/-- `pointer::align_offset(a)` for natural addresses: the distance to the next
multiple of `a` at or after `p`. -/
def align_offset (p a : Nat) : Nat := (a - p % a) % a

/-- Fuelled helper for `nextPow2`: the smallest power of two ≥ `n`, computed
by ceiling halving (`p2(n) = 2 * p2(⌈n/2⌉)` for `n ≥ 2`).  The fuel only
bounds the recursion depth; `nextPow2` passes `n` itself, which always
suffices since the argument at least halves at every step. -/
def nextPow2Aux : Nat → Nat → Nat
  | 0, _ => 1
  | f + 1, n => if n ≤ 1 then 1 else 2 * nextPow2Aux f ((n + 1) / 2)

/-- `usize::next_power_of_two`: the smallest power of two ≥ `n` (1 for 0). -/
def nextPow2 (n : Nat) : Nat := nextPow2Aux n n

/-- `fn min_region_size() -> usize`:
`mem::size_of::<RegionHeader>() + mem::size_of_val(&REG_END)` = 32 + 6. -/
def min_region_size : Nat := 32 + 6

/-- The OS oracle: addresses `mmap` will return, in order. -/
structure OS where
  mmap_results : List Nat
deriving DecidableEq, Repr

/-- `unsafe fn mmap_new(size: usize) -> *mut u8`.  The OS hands out the next
oracle address, or denies the request (`MAP_FAILED`) when the oracle is
exhausted.  The source forwards whatever `libc::mmap` returns, without any
check. -/
def mmap_new (os : OS) (size : Nat) : Nat × OS :=
  match os.mmap_results with
  | [] => (MAP_FAILED, os)
  | a :: rest => (a, ⟨rest⟩)

/-- `unsafe fn make_region(prev, next, start, end) -> *mut RegionHeader`:
writes a `RegionHeader { magic: REGION_START, prev, next, size: end - start }`
at `start` and the 6-byte `REG_END` at `end - 6`, returning `start`. -/
def make_region (m : Mem) (prev next start endp : Nat) : Mem × Nat :=
  let size := endp - start
  let m2 := writeRegionHeader m start ⟨REGION_START, prev, next, size⟩
  (store m2 (endp - 6) REG_END, start)

/-- Result of `map_new_region` together with the threaded memory and OS. -/
structure MapResult where
  mem : Mem
  os : OS
  blk : MappedMemory
deriving DecidableEq, Repr

/-- `unsafe fn map_new_region(alloc_size: usize) -> MappedMemory`: maps
`alloc_size` bytes and unconditionally writes one region covering the whole
mapping (even when `mmap` returned `MAP_FAILED`: the source performs no
check, so the header write goes through the failure value).  The descriptor
records `largest = alloc_size` and `first_free = ptr`. -/
def map_new_region (m : Mem) (os : OS) (alloc_size : Nat) : MapResult :=
  let r := mmap_new os alloc_size
  let m2 := (make_region m 0 0 r.1 (r.1 + alloc_size)).1
  ⟨m2, r.2, ⟨r.1, alloc_size, alloc_size, r.1⟩⟩

/-- The address arithmetic of `make_allocation` (lib.rs lines 107-122):
`tag_ptr` is the region start aligned up to `align_of::<AllocationTag>() = 8`;
the usable pointer is `tag_ptr + size_of::<AllocationTag>() = 32` aligned up
to the caller's alignment; the successor region starts after the usable bytes,
aligned up to `align_of::<RegionHeader>() = 8`. -/
def allocation_layout_of (region : Nat) (layout : Layout) : AllocationLayout :=
  let tag_ptr := region + align_offset region 8
  let alloc_start := tag_ptr + 32
  let allocation_ptr := alloc_start + align_offset alloc_start layout.align
  let next_reg_start := allocation_ptr + layout.size
  ⟨region, tag_ptr, allocation_ptr, next_reg_start + align_offset next_reg_start 8⟩

/-- `unsafe fn make_allocation(region, layout) -> AllocationLayout`: panics on
a null region or a wrong leading magic, then writes an `AllocationTag` whose
`tag_start` field is `REGION_START` (the source literally writes
`tag_start: REGION_START`, not `TAG_START`), `prev_free` is the region
header's `prev`, and `size` is `next_region_ptr - tag_ptr`. -/
def make_allocation (m : Mem) (region : Nat) (layout : Layout) :
    Except String (Mem × AllocationLayout) :=
  if region = 0 then Except.error ("Passed null region header")
  else if (readRegionHeader m region).magic ≠ REGION_START then
    Except.error ("start of region didn't have the correct magic constant")
  else
    let al := allocation_layout_of region layout
    Except.ok
      (writeAllocationTag m al.tag_ptr
        ⟨REGION_START, (readRegionHeader m region).prev,
          al.next_region_ptr - al.tag_ptr, TAG_END⟩,
       al)

/-- One fuelled unfolding of the doubling loop below. -/
def grow_alloc_size_fuel : Nat → Nat → Nat
  | 0, a => a
  | f + 1, a => if a < 16777216 then grow_alloc_size_fuel f (2 * a) else a

/-- `while alloc_size < 16 * 1024 * 1024 { alloc_size *= 2 }` from
`init_alloc_context`.  64 doublings cover the whole usize range, so for any
positive page size the fuel never runs out and the result is exactly the
source loop's; the source loop does not terminate when the page size is 0,
but `sysconf(_SC_PAGESIZE)` is always positive. -/
def grow_alloc_size (a : Nat) : Nat := grow_alloc_size_fuel 64 a

/-- `struct AllocContext` (the `MappingList` overflow pointer `next_list` is
initialized to null and never followed by `alloc`, so only the single table
page of `MappedMemory` slots is modelled). -/
structure AllocContext where
  list : List MappedMemory
  page_size : Nat
  alloc_size : Nat
deriving DecidableEq, Repr

/-- `unsafe fn init_alloc_context()`: queries the OS page size, doubles it up
to the 16 MiB floor, and zero-fills one table page of
`page_size / size_of::<MappedMemory>()` slots (the page from `mmap_new` is
page aligned, so `align_to` keeps every slot). -/
def init_alloc_context (page_size : Nat) : AllocContext :=
  ⟨List.replicate (page_size / 32) ⟨0, 0, 0, 0⟩, page_size, grow_alloc_size page_size⟩

/-- Full allocator state: the heap words, the OS oracle, and the context. -/
structure AllocState where
  mem : Mem
  os : OS
  ctx : AllocContext
deriving DecidableEq, Repr

/-- Result of the slot-scanning loop of `alloc` (lib.rs lines 210-221). -/
structure LoopResult where
  slots : List MappedMemory
  mem : Mem
  os : OS
  sel : Option MappedMemory
deriving DecidableEq, Repr

/-- The `for mapping in context.alloc_list.list.iter_mut()` loop of `alloc`:
a null slot is unconditionally replaced by a brand new mapping of
`max(alloc_size, layout.size().next_power_of_two())` bytes and selected
(without a `break`, so the scan continues); a used slot with
`largest > layout.size()` is selected and the loop breaks.  The selection is
the last one assigned, matching the mutable `selected_region` variable. -/
def alloc_loop (slots : List MappedMemory) (m : Mem) (os : OS) (alloc_size sz : Nat) :
    LoopResult :=
  match slots with
  | [] => ⟨[], m, os, none⟩
  | s :: rest =>
    if s.start = 0 then
      let r := map_new_region m os (max alloc_size (nextPow2 sz))
      let k := alloc_loop rest r.mem r.os alloc_size sz
      ⟨r.blk :: k.slots, k.mem, k.os,
        match k.sel with
        | some x => some x
        | none => some r.blk⟩
    else if sz < s.largest then
      ⟨s :: rest, m, os, some s⟩
    else
      let k := alloc_loop rest m os alloc_size sz
      ⟨s :: k.slots, k.mem, k.os, k.sel⟩

/-- Lines 229-249 of `alloc`: destructure the selected region header, call
`make_allocation`, then either fold the whole region into the tag's `size`
field (when `next_region_ptr - start_ptr < min_region_size()`) or write the
successor region from `next_region_ptr` to the original region's end with the
original `prev`/`next` links.  Returns the usable pointer. -/
def carve (m : Mem) (selected_region : Nat) (layout : Layout) :
    Except String (Mem × Nat) :=
  let hdr := readRegionHeader m selected_region
  match make_allocation m selected_region layout with
  | Except.error e => Except.error e
  | Except.ok (m2, al) =>
    Except.ok
      (if al.next_region_ptr - al.start_ptr < min_region_size then
        store m2 (al.tag_ptr + 16) hdr.size
      else
        (make_region m2 hdr.prev hdr.next al.next_region_ptr
          (selected_region + hdr.size)).1,
       al.allocation_ptr)

/-- `unsafe fn alloc(&self, layout: Layout) -> *mut u8`: run the slot scan;
with no selection return null (the slot mutations persist); otherwise carve
the selected mapping's `first_free` region.  A panic inside
`make_allocation` aborts (no post-state). -/
def alloc (s : AllocState) (layout : Layout) : Except String (AllocState × Nat) :=
  let r := alloc_loop s.ctx.list s.mem s.os s.ctx.alloc_size layout.size
  let ctx2 : AllocContext := ⟨r.slots, s.ctx.page_size, s.ctx.alloc_size⟩
  match r.sel with
  | none => Except.ok (⟨r.mem, r.os, ctx2⟩, 0)
  | some reg =>
    match carve r.mem reg.first_free layout with
    | Except.error e => Except.error e
    | Except.ok (m2, ptr) => Except.ok (⟨m2, r.os, ctx2⟩, ptr)

/-- `unsafe fn dealloc(&self, ptr: *mut u8, layout: Layout)`: the entire body
is `println!("buy more memory lol")`; the allocator state is untouched and
the call always returns.  The printed line is the second component. -/
def dealloc (s : AllocState) (ptr : Nat) (layout : Layout) : AllocState × List String :=
  (s, ["buy more memory lol"])

/-- Fresh allocator state: empty heap model, the given OS oracle, and the
lazily built context of `init_alloc_context`. -/
def initState (page_size : Nat) (os : OS) : AllocState :=
  ⟨[], os, init_alloc_context page_size⟩

/-- One observable allocation step: the post-state of `alloc`, or the
unchanged state when `alloc` panics (a panic has no observable post-state). -/
def step (s : AllocState) (l : Layout) : AllocState :=
  match alloc s l with
  | Except.ok (s2, _) => s2
  | Except.error _ => s

/-- The pointer an `alloc` call returns (0 when the call panics). -/
def result (s : AllocState) (l : Layout) : Nat :=
  match alloc s l with
  | Except.ok (_, p) => p
  | Except.error _ => 0

/-- A sequence of allocate operations from a starting state. -/
def runAllocs (ops : List Layout) (s : AllocState) : AllocState :=
  ops.foldl step s

/-- Memory of a `carve` result (empty when the call panicked). -/
def carveMem (r : Except String (Mem × Nat)) : Mem :=
  match r with
  | Except.ok (m, _) => m
  | Except.error _ => []

/-- Pointer of a `carve` result (0 when the call panicked). -/
def carvePtr (r : Except String (Mem × Nat)) : Nat :=
  match r with
  | Except.ok (_, p) => p
  | Except.error _ => 0

/-- Memory of a `make_allocation` result (empty when the call panicked). -/
def allocResMem (r : Except String (Mem × AllocationLayout)) : Mem :=
  match r with
  | Except.ok (m, _) => m
  | Except.error _ => []

/-- Layout of a `make_allocation` result (zeroed when the call panicked). -/
def allocResLay (r : Except String (Mem × AllocationLayout)) : AllocationLayout :=
  match r with
  | Except.ok (_, al) => al
  | Except.error _ => ⟨0, 0, 0, 0⟩

/-!
Concrete execution used by several claims: the standard 4096-byte page size
(so the table page holds `4096 / 32 = 128` slots and
`alloc_size = 16 MiB = 16777216`), an OS oracle handing out the disjoint
16 MiB-apart page-aligned addresses `(i + 1) * 33554432`, and three
consecutive `alloc(Layout { size: 64, align: 8 })` calls.

* call 1 finds every slot null, maps a fresh 16 MiB block into each of the
  128 slots (the null branch of the scan has no `break`), and serves from the
  last one: `p1 = 4294967296 + 32`.
* call 2 picks slot 0 (`largest = 16777216 > 64`) and carves its head region
  at `33554432`, returning `p2 = 33554464`; the slot's `first_free` is not
  updated and still points at `33554432`, which now holds the allocation's
  tag (whose leading eight bytes are again `REGION_START`).
* call 3 picks slot 0 again, passes the magic check on the stale head, and
  computes the same usable pointer `p3 = p2`.  (In a real execution this
  third call runs `make_region` with the tag's `tag_end` bytes read back as
  the region size and crashes on the far-out-of-bounds `REG_END` write; the
  model records that write at its computed address instead of trapping, so
  the call's return value is observable here.)
-/

/-- OS oracle for the concrete runs: 128 disjoint block addresses. -/
def osA : OS := ⟨(List.range 128).map (fun i => (i + 1) * 33554432)⟩

/-- `Layout { size: 64, align: 8 }`. -/
def L64 : Layout := ⟨64, 8⟩

/-- Fresh allocator state over `osA`. -/
def s0 : AllocState := initState 4096 osA

/-- State after the first `alloc(64, 8)`. -/
def s1 : AllocState := step s0 L64

/-- Pointer returned by the first `alloc(64, 8)`. -/
def p1 : Nat := result s0 L64

/-- State after the second `alloc(64, 8)`. -/
def s2 : AllocState := step s1 L64

/-- Pointer returned by the second `alloc(64, 8)`. -/
def p2 : Nat := result s1 L64

/-- Pointer returned by the third `alloc(64, 8)` (see the note above on the
real execution crashing inside this call). -/
def p3 : Nat := result s2 L64

/-- OS oracle that denies every mapping request. -/
def osFail : OS := ⟨[]⟩

/-- Fresh allocator state whose every `mmap` fails. -/
def sF : AllocState := initState 4096 osFail

/-- A single 16 MiB free region at address 1000, as `map_new_region` would
write it: the input for the tag-marker observation. -/
def m7 : Mem := (make_region ([] : Mem) 0 0 1000 (1000 + 16777216)).1

/-- A free region of 100 bytes at address 1000: input for the split-condition
counterexample. -/
def mC5 : Mem := (make_region ([] : Mem) 0 0 1000 1100).1

/-- `Layout { size: 56, align: 8 }`: inside the 100-byte region this leaves a
12-byte tail after the successor address 1088. -/
def LC5 : Layout := ⟨56, 8⟩

/-- A 16 MiB free region at address 1000: base memory for the split-step
witness. -/
def m5 : Mem := (make_region ([] : Mem) 0 0 1000 (1000 + 16777216)).1

/-- The memory `make_allocation` produces on the witness region. -/
def m15 : Mem := allocResMem (make_allocation m5 1000 L64)

/-- The layout `make_allocation` computes on the witness region. -/
def al5 : AllocationLayout := allocResLay (make_allocation m5 1000 L64)

/-- Every slot's `largest` hint equals its `len`: the invariant behind the
hint's upper-bound property (`alloc` never writes `largest` after a slot is
created, and creation sets it to the whole mapping length). -/
def hintOk (l : List MappedMemory) : Prop :=
  ∀ b ∈ l, b.largest = b.len

/-! General lemmas about the memory model and the helper functions. -/

theorem load_store_same (m : Mem) (a v : Nat) : load (store m a v) a = v := by
  simp [load, store]

theorem load_store_ne (m : Mem) (a b v : Nat) (h : a ≠ b) :
    load (store m a v) b = load m b := by
  simp [load, store, h]

theorem nextPow2Aux_ge (f : Nat) : ∀ n, n ≤ 2 ^ f → n ≤ nextPow2Aux f n := by
  induction f with
  | zero =>
    intro n h
    simpa [nextPow2Aux] using h
  | succ f ih =>
    intro n h
    by_cases h1 : n ≤ 1
    · simp [nextPow2Aux, h1]
    · have h2 : (n + 1) / 2 ≤ 2 ^ f := by
        have : n ≤ 2 * 2 ^ f := by
          simpa [Nat.pow_succ, Nat.mul_comm] using h
        omega
      have h3 := ih ((n + 1) / 2) h2
      simp only [nextPow2Aux, h1, if_false]
      omega

theorem nextPow2_ge (n : Nat) : n ≤ nextPow2 n :=
  nextPow2Aux_ge n n (Nat.le_of_lt (Nat.lt_two_pow n))

/-- Every slot in the scan's output is either an untouched input slot or a
mapping freshly created with exactly `max alloc_size (nextPow2 sz)` bytes,
whose `largest` hint equals that length. -/
theorem alloc_loop_mem (slots : List MappedMemory) (m : Mem) (os : OS)
    (alloc_size sz : Nat) (b : MappedMemory)
    (hb : b ∈ (alloc_loop slots m os alloc_size sz).slots) :
    b ∈ slots ∨ (b.len = max alloc_size (nextPow2 sz) ∧ b.largest = b.len) := by
  induction slots generalizing m os with
  | nil =>
    simp [alloc_loop] at hb
  | cons s rest ih =>
    by_cases h1 : s.start = 0
    · simp only [alloc_loop, h1, if_true] at hb
      rcases List.mem_cons.mp hb with h | h
      · subst h
        right
        simp [map_new_region]
      · rcases ih _ _ h with h2 | h2
        · exact Or.inl (List.mem_cons_of_mem _ h2)
        · exact Or.inr h2
    · by_cases h2 : sz < s.largest
      · simp only [alloc_loop, h1, if_false, h2, if_true] at hb
        exact Or.inl hb
      · simp only [alloc_loop, h1, if_false, h2] at hb
        rcases List.mem_cons.mp hb with h | h
        · exact Or.inl (h ▸ List.mem_cons_self s rest)
        · rcases ih _ _ h with h3 | h3
          · exact Or.inl (List.mem_cons_of_mem _ h3)
          · exact Or.inr h3

/-- Whatever `alloc` returns, the resulting Mapping Table is the one the slot
scan produced. -/
theorem alloc_ok_list (s : AllocState) (layout : Layout) (s2 : AllocState)
    (p : Nat) (h : alloc s layout = Except.ok (s2, p)) :
    s2.ctx.list = (alloc_loop s.ctx.list s.mem s.os s.ctx.alloc_size layout.size).slots := by
  simp only [alloc] at h
  cases hsel : (alloc_loop s.ctx.list s.mem s.os s.ctx.alloc_size layout.size).sel with
  | none =>
    rw [hsel] at h
    simp only [Except.ok.injEq, Prod.mk.injEq] at h
    rw [← h.1]
  | some reg =>
    rw [hsel] at h
    dsimp only at h
    cases hc : carve (alloc_loop s.ctx.list s.mem s.os s.ctx.alloc_size layout.size).mem
        reg.first_free layout with
    | error e =>
      rw [hc] at h
      exact absurd h (by simp)
    | ok v =>
      rw [hc] at h
      cases v with
      | mk m2 ptr =>
        simp only [Except.ok.injEq, Prod.mk.injEq] at h
        rw [← h.1]

/-- The slot scan preserves the `largest = len` invariant. -/
theorem alloc_loop_hintOk (slots : List MappedMemory) (m : Mem) (os : OS)
    (alloc_size sz : Nat) (h : hintOk slots) :
    hintOk (alloc_loop slots m os alloc_size sz).slots := by
  intro b hb
  rcases alloc_loop_mem slots m os alloc_size sz b hb with h1 | h1
  · exact h b h1
  · exact h1.2

/-- One observable allocation step preserves the `largest = len` invariant. -/
theorem step_hintOk (s : AllocState) (l : Layout) (h : hintOk s.ctx.list) :
    hintOk (step s l).ctx.list := by
  unfold step
  cases ha : alloc s l with
  | error e => exact h
  | ok v =>
    have := alloc_ok_list s l v.1 v.2 (by rw [ha])
    rw [this]
    exact alloc_loop_hintOk _ _ _ _ _ h

/-- Any run of allocations from a state with the invariant keeps it. -/
theorem runAllocs_hintOk (ops : List Layout) (s : AllocState)
    (h : hintOk s.ctx.list) : hintOk (runAllocs ops s).ctx.list := by
  induction ops generalizing s with
  | nil => exact h
  | cons l rest ih => exact ih (step s l) (step_hintOk s l h)

/-- The fresh context's zeroed slots satisfy the invariant. -/
theorem initState_hintOk (page_size : Nat) (os : OS) :
    hintOk (initState page_size os).ctx.list := by
  intro b hb
  have := List.eq_of_mem_replicate hb
  rw [this]

/-! Claim theorems. -/

/-- Claim C1 (code bug).  The claim says the `size` bytes at a returned
pointer never overlap another live allocation or a Free Region of the
allocator state.  In the concrete run, after the second `alloc(64, 8)` the
selected block's `first_free` still points at the consumed head region
`33554432`: the word there carries the free-region magic (the allocation tag
reuses `REGION_START` as its leading marker), so the allocator state still
lists a "free region" whose declared span (its size field now holds the
tag's `tag_end` bytes) contains all 64 bytes of the just-returned live
allocation `p2`.  The third call then carves the same stale head again and
computes the identical usable pointer (`p3 = p2`; in a real execution that
call dies on the wild trailing-sentinel write that the model records instead
of trapping). -/
theorem c1_allocation_overlaps_stale_free_region :
    (s2.ctx.list.getD 0 ⟨0, 0, 0, 0⟩).first_free = 33554432 ∧
    load s2.mem 33554432 = REGION_START ∧
    33554432 ≤ p2 ∧
    p2 + 64 ≤ 33554432 + load s2.mem (33554432 + 24) ∧
    p3 = p2 ∧ p2 ≠ 0 := by decide

/-- Claim C2 (code bug).  The claim describes deallocate as converting the
record's span into a Free Region and coalescing with free neighbours via the
sentinels.  The source `dealloc` body is a single `println!`: on the live
allocation `p2` of the concrete run it returns the state unchanged — no span
is converted, nothing is inspected, nothing is merged. -/
theorem c2_dealloc_converts_nothing :
    dealloc s2 p2 L64 = (s2, ["buy more memory lol"]) := rfl

/-- Claim C3 (code bug).  The claim says a Memory Source failure is detected
and surfaced as a null return.  With an OS that denies every mapping,
`mmap` yields `MAP_FAILED` (the all-ones pointer); the code never compares
the result against `MAP_FAILED` (or null), stores it as the block `start` of
every slot, carves an "allocation" relative to it, and returns the non-null
pointer `2^64 + 32` computed from the failure value (in a real execution the
unchecked header write through `MAP_FAILED` faults; the model records those
writes instead of trapping). -/
theorem c3_mmap_failure_not_detected :
    result sF L64 = 18446744073709551648 ∧
    result sF L64 ≠ 0 ∧
    ((step sF L64).ctx.list.getD 0 ⟨0, 0, 0, 0⟩).start = MAP_FAILED ∧
    MAP_FAILED ≠ 0 := by decide

/-- Claim C4 (code bug).  The claim says a request no existing block can
satisfy creates exactly one new Mapped Block in the first unused slot and is
served from it.  The null-slot branch of the scan has no `break`, so the
first allocation on a fresh table maps a new 16 MiB block into every one of
the 128 slots (exhausting the whole OS oracle) and serves the request from
the LAST slot's block (`p1 = 4294967296 + 32`), not from the first slot's
block at `33554432`. -/
theorem c4_fresh_alloc_fills_every_slot :
    (s1.ctx.list.all (fun b => b.start != 0)) = true ∧
    s1.ctx.list.length = 128 ∧
    s1.os.mmap_results = [] ∧
    p1 = 4294967328 ∧
    (s1.ctx.list.getD 0 ⟨0, 0, 0, 0⟩).start = 33554432 ∧
    p1 ≠ 33554432 + 32 := by decide

/-- Claim C6 (code bug).  The claim says that after the head Free Region is
carved, the block's `free_list_head` is updated to the replacement region
(or to `next`).  In the concrete run the second `alloc(64, 8)` carves block
0's head at `33554432` and writes the replacement region at `33554432 + 96`,
yet the slot's `first_free` still holds `33554432` — the source never
assigns `mapping.first_free` after the split. -/
theorem c6_free_list_head_not_updated :
    (s2.ctx.list.getD 0 ⟨0, 0, 0, 0⟩).first_free = 33554432 ∧
    load s2.mem (33554432 + 96) = REGION_START ∧
    (s2.ctx.list.getD 0 ⟨0, 0, 0, 0⟩).first_free ≠ 33554432 + 96 := by decide

/-- Claim C7 (code bug).  The claim says every Allocation Record carries a
leading sentinel distinct from the Free Region marker.  `make_allocation`
literally writes `tag_start: REGION_START` (the `TAG_START` constant is
declared but never used), so the record written into a valid region carries
exactly the free-region magic in its leading word — only its trailing field
gets the distinct `TAG_END` — and is indistinguishable from a Free Region by
the leading marker. -/
theorem c7_tag_leading_marker_not_distinct :
    (make_allocation m7 1000 L64).isOk = true ∧
    load (allocResMem (make_allocation m7 1000 L64))
      (allocResLay (make_allocation m7 1000 L64)).tag_ptr = REGION_START ∧
    load (allocResMem (make_allocation m7 1000 L64))
      ((allocResLay (make_allocation m7 1000 L64)).tag_ptr + 24) = TAG_END ∧
    REGION_START ≠ TAG_START := by decide

/-- Claim C5, counterexample.  The claim states the remainder is folded into
`record_size` exactly when the space from the successor address to the
region's end is below `min_region_size`.  For a 100-byte region at 1000 and
`Layout { size: 56, align: 8 }` the successor address is 1088, leaving a
12-byte tail (`12 < 38`), so per the claim the split must fold.  The code
instead compares `next_region_ptr - start_ptr = 88` against 38, does NOT
fold (the tag's size stays 88, not the full 100), and writes a new region
header at 1088 whose recorded size is only 12 — smaller than a header. -/
theorem c5_fold_condition_counterexample :
    (allocation_layout_of 1000 LC5).next_region_ptr = 1088 ∧
    (readRegionHeader mC5 1000).size = 100 ∧
    1000 + (readRegionHeader mC5 1000).size - 1088 < min_region_size ∧
    (carve mC5 1000 LC5).isOk = true ∧
    carvePtr (carve mC5 1000 LC5) = 1032 ∧
    load (carveMem (carve mC5 1000 LC5)) (1000 + 16) = 88 ∧
    load (carveMem (carve mC5 1000 LC5)) (1000 + 16) ≠ (readRegionHeader mC5 1000).size ∧
    load (carveMem (carve mC5 1000 LC5)) 1088 = REGION_START ∧
    load (carveMem (carve mC5 1000 LC5)) (1088 + 24) = 12 := by decide

/-- Claim C10 (confirmed).  For every pointer and layout, `dealloc` leaves
the entire allocator state — heap words, OS oracle, Mapping Table — exactly
as it was, returns normally (it is a total function; the body performs no
sentinel validation and cannot panic), and only emits its message. -/
theorem c10_dealloc_is_identity (s : AllocState) (ptr : Nat) (layout : Layout) :
    (dealloc s ptr layout).1 = s ∧
    (dealloc s ptr layout).2 = ["buy more memory lol"] :=
  ⟨rfl, rfl⟩

/-- Unfolding of `carve` once the inner `make_allocation` result is known. -/
theorem carve_eq_of_make (m : Mem) (r : Nat) (layout : Layout) (m1 : Mem)
    (al : AllocationLayout) (h : make_allocation m r layout = Except.ok (m1, al)) :
    carve m r layout = Except.ok
      (if al.next_region_ptr - al.start_ptr < min_region_size then
        store m1 (al.tag_ptr + 16) (readRegionHeader m r).size
      else
        (make_region m1 (readRegionHeader m r).prev (readRegionHeader m r).next
          al.next_region_ptr (r + (readRegionHeader m r).size)).1,
       al.allocation_ptr) := by
  simp only [carve]
  rw [h]

/-- Claim C5, amended (corrected claim).  In the split step the remaining
tail is folded into the Allocation Record's size exactly when the span from
the ORIGINAL REGION'S START to the computed successor address (the
allocation's own footprint, `next_region_ptr - start_ptr`) is smaller than
the minimum viable Free Region size — not the span from the successor
address to the region's end; otherwise a new Free Region is written at the
successor address, inheriting the original region's `prev`/`next` links and
covering the bytes up to the original region's end (the header's content is
stated for tails that can hold a header, so that the trailing-sentinel write
does not overlay it). -/
theorem c5_split_folds_iff_footprint_small (m : Mem) (r : Nat) (layout : Layout)
    (m1 : Mem) (al : AllocationLayout)
    (h : make_allocation m r layout = Except.ok (m1, al)) :
    ∃ m2, carve m r layout = Except.ok (m2, al.allocation_ptr) ∧
      ((al.next_region_ptr - al.start_ptr < min_region_size ∧
          load m2 (al.tag_ptr + 16) = (readRegionHeader m r).size) ∨
        (min_region_size ≤ al.next_region_ptr - al.start_ptr ∧
          (al.next_region_ptr + min_region_size ≤ r + (readRegionHeader m r).size →
            readRegionHeader m2 al.next_region_ptr =
              ⟨REGION_START, (readRegionHeader m r).prev, (readRegionHeader m r).next,
                r + (readRegionHeader m r).size - al.next_region_ptr⟩))) := by
  refine ⟨_, carve_eq_of_make m r layout m1 al h, ?_⟩
  by_cases hc : al.next_region_ptr - al.start_ptr < min_region_size
  · rw [if_pos hc]
    exact Or.inl ⟨hc, load_store_same _ _ _⟩
  · rw [if_neg hc]
    refine Or.inr ⟨Nat.le_of_not_lt hc, ?_⟩
    intro htail
    have h38 : min_region_size = 38 := rfl
    rw [h38] at htail
    simp only [readRegionHeader] at htail
    simp only [make_region, writeRegionHeader, readRegionHeader, RegionHeader.mk.injEq]
    refine ⟨?_, ?_, ?_, ?_⟩
    · rw [load_store_ne _ _ _ _ (by omega), load_store_ne _ _ _ _ (by omega),
        load_store_ne _ _ _ _ (by omega), load_store_ne _ _ _ _ (by omega),
        load_store_same]
    · rw [load_store_ne _ _ _ _ (by omega), load_store_ne _ _ _ _ (by omega),
        load_store_ne _ _ _ _ (by omega), load_store_same]
    · rw [load_store_ne _ _ _ _ (by omega), load_store_ne _ _ _ _ (by omega),
        load_store_same]
    · rw [load_store_ne _ _ _ _ (by omega), load_store_same]

/-- Witness for the amended split-step claim: the 16 MiB region at 1000 with
`Layout { size: 64, align: 8 }` takes the non-fold branch and writes the
successor Free Region at 1096 with the inherited null links. -/
theorem c5_split_witness :
    ∃ m2, carve m5 1000 L64 = Except.ok (m2, al5.allocation_ptr) ∧
      ((al5.next_region_ptr - al5.start_ptr < min_region_size ∧
          load m2 (al5.tag_ptr + 16) = (readRegionHeader m5 1000).size) ∨
        (min_region_size ≤ al5.next_region_ptr - al5.start_ptr ∧
          (al5.next_region_ptr + min_region_size ≤ 1000 + (readRegionHeader m5 1000).size →
            readRegionHeader m2 al5.next_region_ptr =
              ⟨REGION_START, (readRegionHeader m5 1000).prev, (readRegionHeader m5 1000).next,
                1000 + (readRegionHeader m5 1000).size - al5.next_region_ptr⟩))) :=
  c5_split_folds_iff_footprint_small m5 1000 L64 m15 al5 (by rfl)

/-- Claim C8 (confirmed).  Every Mapped Block that an `alloc` call adds to
the Mapping Table is created with exactly
`max(alloc_size, layout.size().next_power_of_two())` bytes, where
`alloc_size` is the context's growth increment; in particular a request
larger than the growth increment yields a block of exactly the next power of
two of the requested size. -/
theorem c8_new_block_size (s : AllocState) (layout : Layout) (sr : AllocState)
    (p : Nat) (h : alloc s layout = Except.ok (sr, p)) (b : MappedMemory)
    (hb : b ∈ sr.ctx.list) (hnew : b ∉ s.ctx.list) :
    b.len = max s.ctx.alloc_size (nextPow2 layout.size) ∧
    (s.ctx.alloc_size < layout.size → b.len = nextPow2 layout.size) := by
  have hl := alloc_ok_list s layout sr p h
  rw [hl] at hb
  rcases alloc_loop_mem _ _ _ _ _ b hb with h1 | h1
  · exact absurd h1 hnew
  · refine ⟨h1.1, ?_⟩
    intro hlt
    rw [h1.1]
    exact Nat.max_eq_right (Nat.le_trans (Nat.le_of_lt hlt) (nextPow2_ge _))

/-- Witness for the block-size claim: the block the first concrete `alloc`
put into slot 0 is new and has length `max 16777216 (nextPow2 64) = 16 MiB`. -/
theorem c8_witness :
    (⟨33554432, 16777216, 16777216, 33554432⟩ : MappedMemory).len =
      max s0.ctx.alloc_size (nextPow2 L64.size) ∧
    (s0.ctx.alloc_size < L64.size →
      (⟨33554432, 16777216, 16777216, 33554432⟩ : MappedMemory).len =
        nextPow2 L64.size) :=
  c8_new_block_size s0 L64 s1 p1 (by rfl)
    ⟨33554432, 16777216, 16777216, 33554432⟩ (by decide) (by decide)

/-- Claim C9 (confirmed).  After any sequence of allocate operations from a
fresh state, every Mapped Block's `largest` hint is an upper bound on the
size of any contiguous free region lying inside the block's extent: slots
are only ever written at creation, where `largest = len`, and a region
contained in the extent cannot exceed `len`. -/
theorem c9_largest_hint_upper_bound (ops : List Layout) (page_size : Nat)
    (os : OS) (b : MappedMemory)
    (hb : b ∈ (runAllocs ops (initState page_size os)).ctx.list)
    (lo sz : Nat) (h1 : b.start ≤ lo) (h2 : lo + sz ≤ b.start + b.len) :
    sz ≤ b.largest := by
  have hinv := runAllocs_hintOk ops (initState page_size os)
    (initState_hintOk page_size os)
  have h3 := hinv b hb
  omega

/-- Witness for the hint claim: after one concrete allocation, a 100-byte
span inside slot 0's block is bounded by the block's hint. -/
theorem c9_witness :
    (100 : Nat) ≤ (⟨33554432, 16777216, 16777216, 33554432⟩ : MappedMemory).largest :=
  c9_largest_hint_upper_bound [L64] 4096 osA
    ⟨33554432, 16777216, 16777216, 33554432⟩ (by decide)
    33554528 100 (by decide) (by decide)

end FreelistAlloc
